import Mathlib

/-!
Verification of the CWSI / ETa pipeline of `ETa_IRT.py`.

The formula chain is embedded over the real numbers.  Fallible operations
(division by a vanishing denominator, the fourth root of a negative
radicand, the Tetens singularity at T = -237.3) are modelled with
`Option`; the warning emitted by the fractional-cover clamp is returned
as an explicit value; the batch runner is modelled over association-list
rows with `Except`, distinguishing missing-column (schema) failures from
numeric (domain) failures.
-/

open Real

/-- Warning emitted by `fractional_veg_cover`, carrying the out-of-range
pre-clamp value that its message names. -/
inductive FrWarning where
  | lessThanZero : ℝ → FrWarning
  | greaterThanOne : ℝ → FrWarning

/-- The out-of-range value named by a `FrWarning`. -/
def FrWarning.value : FrWarning → ℝ
  | FrWarning.lessThanZero v => v
  | FrWarning.greaterThanOne v => v

/-- NDVI = (Nir - Red) / (Nir + Red); the division fails when
Nir + Red = 0. -/
noncomputable def calc_NDVI (Nir Red : ℝ) : Option ℝ :=
  if Nir + Red = 0 then none else some ((Nir - Red) / (Nir + Red))

/-- Linear min-max rescaling of an NDVI value. -/
noncomputable def scale_NDVI (NDVI NDVI_max NDVI_min : ℝ) : ℝ :=
  (NDVI - NDVI_min) / (NDVI_max - NDVI_min)

/-- Fractional vegetation cover: the square of the scaled NDVI, clamped
to the interval from 0 to 1, together with the warning the source emits
when the pre-clamp value is out of range. -/
noncomputable def fractional_veg_cover (scaled_NDVI : ℝ) : ℝ × Option FrWarning :=
  let Fr := scaled_NDVI ^ 2
  if Fr < 0 then (0, some (FrWarning.lessThanZero Fr))
  else if Fr > 1 then (1, some (FrWarning.greaterThanOne Fr))
  else (Fr, none)

/-- Emissivity of the target as a cover-weighted mix of vegetation and
soil emissivities. -/
noncomputable def calc_target_emissivity (Fr veg_emissivity soil_emissivity : ℝ) : ℝ :=
  Fr * veg_emissivity + (1 - Fr) * soil_emissivity

/-- Background- and emissivity-corrected target temperature.  The
division fails when the emissivity is zero and the fourth root fails on
a negative radicand. -/
noncomputable def adj_target_T (T_sensor target_emissivity T_background : ℝ) : Option ℝ :=
  if target_emissivity = 0 then none
  else if (T_sensor ^ 4 - (1 - target_emissivity) * T_background ^ 4) / target_emissivity < 0
    then none
  else some (((T_sensor ^ 4 - (1 - target_emissivity) * T_background ^ 4) /
    target_emissivity) ^ (0.25 : ℝ))

/-- Tetens saturation vapor pressure; fails at the singularity
T = -237.3. -/
noncomputable def calc_esat (T : ℝ) : Option ℝ :=
  if T + 237.3 = 0 then none
  else some (0.6108 * Real.exp (17.27 * T / (T + 237.3)))

/-- Actual vapor pressure, recomputing the saturation vapor pressure at
the given temperature exactly as the source does. -/
noncomputable def calc_ea (T RH : ℝ) : Option ℝ :=
  (calc_esat T).map (fun esat => RH * esat / 100)

/-- Vapor pressure deficit. -/
noncomputable def calc_VPD (esat ea : ℝ) : ℝ := esat - ea

/-- Vapor pressure gradient: the given saturation vapor pressure minus
the saturation vapor pressure recomputed at T + 3.11. -/
noncomputable def calc_VPG (esat T : ℝ) : Option ℝ :=
  (calc_esat (T + 3.11)).map (fun esat_b => esat - esat_b)

/-- Idso (1982) lower temperature-difference bound. -/
noncomputable def calc_idso_dTmin (VPD : ℝ) : ℝ := 3.11 - 1.97 * VPD

/-- Idso (1982) upper temperature-difference bound, reusing the same
linear coefficients applied to the vapor pressure gradient. -/
noncomputable def calc_idso_dTmax (VPG : ℝ) : ℝ := 3.11 - 1.97 * VPG

/-- Crop water stress index; the unguarded division fails when
dTmax = dTmin. -/
noncomputable def calc_CWSI (dTmin dTmax Ta T_target : ℝ) : Option ℝ :=
  let dT := T_target - Ta
  if dTmax - dTmin = 0 then none
  else some ((dT - dTmin) / (dTmax - dTmin))

/-- Actual evapotranspiration from the stress index and the potential
evapotranspiration. -/
noncomputable def calc_ETa (CWSI ETc : ℝ) : ℝ := (1 - CWSI) * ETc

/-- The thirteen values returned by one run of the pipeline, in the
order of the tuple returned by the source. -/
structure PipeOut where
  NDVI : ℝ
  NDVI_scaled : ℝ
  Fr : ℝ
  target_emissivity : ℝ
  T_target : ℝ
  esat : ℝ
  ea : ℝ
  vpd : ℝ
  vpg : ℝ
  dTmin : ℝ
  dTmax : ℝ
  cwsi : ℝ
  ETa : ℝ

/-- The per-observation pipeline: the leaf stage functions sequenced in
the order of the source, threading each output to the next stage and
using the source's default constants. -/
noncomputable def calc_CWSI_ETa (Nir Red T_sensor RH Ta ETc : ℝ) : Option PipeOut :=
  (calc_NDVI Nir Red).bind fun NDVI =>
  let NDVI_scaled := scale_NDVI NDVI 0.90 0.15
  let Fr := (fractional_veg_cover NDVI_scaled).1
  let target_emissivity := calc_target_emissivity Fr 0.98 0.93
  (adj_target_T T_sensor target_emissivity (-15)).bind fun T_target =>
  (calc_esat Ta).bind fun esat =>
  (calc_ea Ta RH).bind fun ea =>
  let vpd := calc_VPD esat ea
  (calc_VPG esat Ta).bind fun vpg =>
  let dTmin := calc_idso_dTmin vpd
  let dTmax := calc_idso_dTmax vpg
  (calc_CWSI dTmin dTmax Ta T_target).bind fun cwsi =>
  let ETa := calc_ETa cwsi ETc
  some (PipeOut.mk NDVI NDVI_scaled Fr target_emissivity T_target esat ea vpd vpg
    dTmin dTmax cwsi ETa)

/-- One row of the tabular input: an association list from column names
to numeric cell values. -/
structure Row where
  cells : List (String × ℝ)

/-- First cell of a row carrying the given column name, if any. -/
def lookupCell : List (String × ℝ) → String → Option ℝ
  | [], _ => none
  | p :: rest, c => if p.1 = c then some p.2 else lookupCell rest c

/-- Column lookup on a row. -/
def Row.get (r : Row) (c : String) : Option ℝ :=
  lookupCell r.cells c

/-- Whether a row already carries a cell with the given column name. -/
def hasCol (cells : List (String × ℝ)) (c : String) : Bool :=
  cells.any (fun p => p.1 == c)

/-- Column assignment with the semantics of the tabular sink: an
existing column of the same name is overwritten in place, otherwise the
column is appended at the end. -/
def setCell (cells : List (String × ℝ)) (c : String) (v : ℝ) : List (String × ℝ) :=
  if hasCol cells c then cells.map (fun p => if p.1 == c then (c, v) else p)
  else cells ++ [(c, v)]

/-- Failures of the batch runner: a missing input column (the KeyError
raised by the row lookup, carrying the column name) or a numeric domain
failure inside the per-observation pipeline. -/
inductive ModelError where
  | schema : String → ModelError
  | domain : ModelError

/-- Per-row driver of the batch runner: looks up the six input columns
in the source's argument order, then runs the pipeline. -/
noncomputable def processRow (cN cR cT cRH cTa cE : String) (r : Row) :
    Except ModelError PipeOut :=
  match r.get cN with
  | none => Except.error (ModelError.schema cN)
  | some nir =>
  match r.get cR with
  | none => Except.error (ModelError.schema cR)
  | some red =>
  match r.get cT with
  | none => Except.error (ModelError.schema cT)
  | some tsensor =>
  match r.get cRH with
  | none => Except.error (ModelError.schema cRH)
  | some rh =>
  match r.get cTa with
  | none => Except.error (ModelError.schema cTa)
  | some ta =>
  match r.get cE with
  | none => Except.error (ModelError.schema cE)
  | some etc =>
  match calc_CWSI_ETa nir red tsensor rh ta etc with
  | none => Except.error ModelError.domain
  | some t => Except.ok t

/-- Sequential traversal stopping at the first failing row, as the
source's loop does when an exception aborts it. -/
def mapExcept {ε α β : Type} (f : α → Except ε β) : List α → Except ε (List β)
  | [] => Except.ok []
  | a :: as =>
    match f a with
    | Except.error e => Except.error e
    | Except.ok b =>
      match mapExcept f as with
      | Except.error e => Except.error e
      | Except.ok bs => Except.ok (b :: bs)

/-- The eleven result cells the batch runner writes, in the fixed order
of the source's column assignments. -/
def resultCells (t : PipeOut) : List (String × ℝ) :=
  [("NDVI", t.NDVI), ("NDVI_scaled", t.NDVI_scaled), ("Fr", t.Fr),
   ("target_emissivity", t.target_emissivity), ("T_target_corr", t.T_target),
   ("VPD", t.vpd), ("VPG", t.vpg), ("dTmin", t.dTmin), ("dTmax", t.dTmax),
   ("CWSI", t.cwsi), ("ETa", t.ETa)]

/-- The names of the eleven result columns, in assignment order. -/
def resultCols : List String :=
  ["NDVI", "NDVI_scaled", "Fr", "target_emissivity", "T_target_corr",
   "VPD", "VPG", "dTmin", "dTmax", "CWSI", "ETa"]

/-- Sequential column assignments performed on one output row. -/
def setCells (cells : List (String × ℝ)) : List (String × ℝ) → List (String × ℝ)
  | [] => cells
  | p :: rest => setCells (setCell cells p.1 p.2) rest

/-- All eleven result-column assignments applied to one row. -/
def appendResults (cells : List (String × ℝ)) (t : PipeOut) : List (String × ℝ) :=
  setCells cells (resultCells t)

/-- The batch runner: runs the pipeline on every row in order and, on
success, returns the input rows with the eleven result columns
assigned.  The first failing row aborts the run with its error and no
output table is produced. -/
noncomputable def run_CWSI_ETa_model (rows : List Row)
    (cN cR cT cRH cTa cE : String) : Except ModelError (List Row) :=
  match mapExcept (processRow cN cR cT cRH cTa cE) rows with
  | Except.error e => Except.error e
  | Except.ok ts =>
    Except.ok ((rows.zip ts).map (fun p => Row.mk (appendResults p.1.cells p.2)))

/-- Concrete exponential appearing in the worked example with
Ta = 0: exp of 17.27 * 3.11 / 240.41. -/
noncomputable def egE : ℝ := Real.exp (537097 / 2404100)

/-- Vapor pressure gradient of the worked example. -/
noncomputable def egVPG : ℝ := 0.6108 - 0.6108 * egE

/-- Upper Idso bound of the worked example. -/
noncomputable def egDTmax : ℝ := 1.906724 + 1.203276 * egE

/-- Stress index of the worked example. -/
noncomputable def egCWSI : ℝ := 13.093276 / (1.203276 * egE)

/-- Full pipeline output of the worked example with inputs
Nir = 1, Red = 0, T_sensor = 15, RH = 0, Ta = 0, ETc = 5. -/
noncomputable def egOut : PipeOut :=
  PipeOut.mk 1 (17 / 15) 1 0.98 15 0.6108 0 0.6108 egVPG 1.906724 egDTmax egCWSI
    ((1 - egCWSI) * 5)

/-- Input cells of the worked example row, under the default column
names of the batch runner. -/
noncomputable def egCells : List (String × ℝ) :=
  [("R_nir", 1), ("R_red", 0), ("T_target", 15), ("RH", 0), ("Air Temp", 0), ("ETc", 5)]

/-- The worked example row extended with a pre-existing column named
like a result column. -/
noncomputable def clashCells : List (String × ℝ) := ("NDVI", 42) :: egCells

/-- Output cells the batch runner produces for the clashing row: the
pre-existing NDVI cell is overwritten in place and only ten columns are
appended. -/
noncomputable def outClashCells : List (String × ℝ) :=
  ("NDVI", 1) :: egCells ++
    [("NDVI_scaled", 17 / 15), ("Fr", 1), ("target_emissivity", 0.98),
     ("T_target_corr", 15), ("VPD", 0.6108), ("VPG", egVPG), ("dTmin", 1.906724),
     ("dTmax", egDTmax), ("CWSI", egCWSI), ("ETa", (1 - egCWSI) * 5)]

/-- C2: for every real scaled-NDVI input, `fractional_veg_cover` returns
a value within the interval from 0 to 1, and a warning is emitted
exactly when the pre-clamp value, the square of the input, lies outside
that interval, the warning naming the out-of-range value. -/
theorem fractional_veg_cover_clamp_warning (s : ℝ) :
    (0 ≤ (fractional_veg_cover s).1 ∧ (fractional_veg_cover s).1 ≤ 1) ∧
    ((fractional_veg_cover s).2.isSome = true ↔ (s ^ 2 < 0 ∨ 1 < s ^ 2)) ∧
    (∀ w, (fractional_veg_cover s).2 = some w → FrWarning.value w = s ^ 2) := by
  have hsq : 0 ≤ s ^ 2 := sq_nonneg s
  have hne : ¬ (s ^ 2 < 0) := not_lt.mpr hsq
  by_cases h1 : s ^ 2 > 1
  · simp only [fractional_veg_cover, if_neg hne, if_pos h1]
    refine ⟨⟨by norm_num, le_refl 1⟩, ?_, ?_⟩
    · simp only [Option.isSome_some, true_iff]
      exact Or.inr h1
    · intro w hw
      cases hw
      rfl
  · simp only [fractional_veg_cover, if_neg hne, if_neg h1]
    push_neg at h1
    refine ⟨⟨hsq, h1⟩, ?_, ?_⟩
    · simp only [Option.isSome_none, Bool.false_eq_true, false_iff]
      push_neg
      exact ⟨hsq, h1⟩
    · intro w hw
      cases hw

/-- C2 witness: the input 2 squares to 4, is clamped to 1 and triggers
the greater-than-one warning naming 4. -/
theorem fractional_veg_cover_clamp_warning_witness :
    (0 ≤ (fractional_veg_cover 2).1 ∧ (fractional_veg_cover 2).1 ≤ 1) ∧
    (fractional_veg_cover 2).2.isSome = true ∧
    FrWarning.value (FrWarning.greaterThanOne 4) = (2 : ℝ) ^ 2 := by
  have h := fractional_veg_cover_clamp_warning 2
  exact ⟨h.1, h.2.1.mpr (Or.inr (by norm_num)),
    h.2.2 (FrWarning.greaterThanOne 4) (by norm_num [fractional_veg_cover])⟩

/-- C10: the pre-clamp value is a square, hence never negative: the
lower clamp branch and its warning are unreachable, the result is the
minimum of the square and 1, and the only warning ever emitted is the
greater-than-one warning, emitted exactly when the square exceeds 1. -/
theorem fractional_veg_cover_min_sq (s : ℝ) :
    (fractional_veg_cover s).1 = min (s ^ 2) 1 ∧
    (∀ v, ¬ (fractional_veg_cover s).2 = some (FrWarning.lessThanZero v)) ∧
    ((fractional_veg_cover s).2 ≠ none ↔ 1 < s ^ 2) ∧
    (∀ w, (fractional_veg_cover s).2 = some w → w = FrWarning.greaterThanOne (s ^ 2)) := by
  have hsq : 0 ≤ s ^ 2 := sq_nonneg s
  have hne : ¬ (s ^ 2 < 0) := not_lt.mpr hsq
  by_cases h1 : s ^ 2 > 1
  · simp only [fractional_veg_cover, if_neg hne, if_pos h1]
    refine ⟨(min_eq_right h1.le).symm, ?_, ?_, ?_⟩
    · intro v hv
      cases hv
    · simp only [ne_eq, reduceCtorEq, not_false_eq_true, true_iff]
      exact h1
    · intro w hw
      cases hw
      rfl
  · simp only [fractional_veg_cover, if_neg hne, if_neg h1]
    push_neg at h1
    refine ⟨(min_eq_left h1).symm, ?_, ?_, ?_⟩
    · intro v hv
      cases hv
    · simp only [ne_eq, not_true_eq_false, false_iff, not_lt]
      exact h1
    · intro w hw
      cases hw

/-- C10 witness: at input 3 the square 9 is clamped to the minimum of 9
and 1, and the emitted warning is the greater-than-one warning. -/
theorem fractional_veg_cover_min_sq_witness :
    (fractional_veg_cover 3).1 = min ((3 : ℝ) ^ 2) 1 ∧
    FrWarning.greaterThanOne 9 = FrWarning.greaterThanOne ((3 : ℝ) ^ 2) := by
  have h := fractional_veg_cover_min_sq 3
  exact ⟨h.1, h.2.2.2 (FrWarning.greaterThanOne 9) (by norm_num [fractional_veg_cover])⟩

/-- C4: with distinct bounds the stress index is the normalized
temperature differential; with equal bounds the unguarded division
fails, and it fails in no other case. -/
theorem calc_CWSI_guard (dTmin dTmax Ta T_target : ℝ) :
    (dTmax ≠ dTmin →
      calc_CWSI dTmin dTmax Ta T_target =
        some ((T_target - Ta - dTmin) / (dTmax - dTmin))) ∧
    (dTmax = dTmin → calc_CWSI dTmin dTmax Ta T_target = none) := by
  constructor
  · intro h
    have hne : dTmax - dTmin ≠ 0 := sub_ne_zero.mpr h
    simp [calc_CWSI, hne]
  · intro h
    simp [calc_CWSI, h]

/-- C4 witness: concrete evaluations on both sides of the guard. -/
theorem calc_CWSI_guard_witness :
    calc_CWSI 0 1 0 2 = some 2 ∧ calc_CWSI 1 1 0 2 = none := by
  constructor
  · have h := (calc_CWSI_guard 0 1 0 2).1 (by norm_num)
    rw [h]
    norm_num
  · exact (calc_CWSI_guard 1 1 0 2).2 rfl

/-- C7: whenever the band sum is nonzero, swapping the bands negates the
NDVI, and for nonnegative bands the NDVI lies between -1 and 1. -/
theorem calc_NDVI_antisym_range (Nir Red : ℝ) (h : Nir + Red ≠ 0) :
    calc_NDVI Nir Red = some ((Nir - Red) / (Nir + Red)) ∧
    calc_NDVI Red Nir = some (-((Nir - Red) / (Nir + Red))) ∧
    (0 ≤ Nir → 0 ≤ Red →
      -1 ≤ (Nir - Red) / (Nir + Red) ∧ (Nir - Red) / (Nir + Red) ≤ 1) := by
  have h2 : Red + Nir ≠ 0 := by rwa [add_comm]
  refine ⟨by simp [calc_NDVI, h], ?_, ?_⟩
  · rw [calc_NDVI, if_neg h2, add_comm Red Nir, ← neg_div, neg_sub]
  · intro hN hR
    have hpos : 0 < Nir + Red := lt_of_le_of_ne (add_nonneg hN hR) (Ne.symm h)
    constructor
    · rw [le_div_iff₀ hpos]
      linarith
    · rw [div_le_one hpos]
      linarith

/-- C7 witness: evaluation at bands 2 and 1. -/
theorem calc_NDVI_antisym_range_witness :
    calc_NDVI 2 1 = some ((2 - 1) / (2 + 1)) ∧
    calc_NDVI 1 2 = some (-((2 - 1) / (2 + 1))) ∧
    -1 ≤ ((2 : ℝ) - 1) / (2 + 1) ∧ ((2 : ℝ) - 1) / (2 + 1) ≤ 1 := by
  obtain ⟨h1, h2, h3⟩ := calc_NDVI_antisym_range 2 1 (by norm_num)
  obtain ⟨h4, h5⟩ := h3 (by norm_num) (by norm_num)
  exact ⟨h1, h2, h4, h5⟩

/-- Strict monotonicity of the Tetens formula to the right of its
singularity. -/
lemma tetens_lt {T1 T2 : ℝ} (h1 : -237.3 < T1) (h12 : T1 < T2) :
    0.6108 * Real.exp (17.27 * T1 / (T1 + 237.3)) <
      0.6108 * Real.exp (17.27 * T2 / (T2 + 237.3)) := by
  have hd1 : (0 : ℝ) < T1 + 237.3 := by linarith
  have hd2 : (0 : ℝ) < T2 + 237.3 := by linarith
  have harg : 17.27 * T1 / (T1 + 237.3) < 17.27 * T2 / (T2 + 237.3) := by
    rw [div_lt_div_iff₀ hd1 hd2]
    nlinarith
  exact mul_lt_mul_of_pos_left (Real.exp_lt_exp.mpr harg) (by norm_num)

/-- C5 counterexample: the temperature -474.6 lies below the singularity
yet `calc_esat` is defined there, and its value exceeds the value at 0,
so the stated monotonicity over every defined pair fails. -/
theorem calc_esat_not_globally_mono :
    (-474.6 : ℝ) < 0 ∧
    calc_esat (-474.6) = some (0.6108 * Real.exp (17.27 * (-474.6) / (-474.6 + 237.3))) ∧
    calc_esat 0 = some (0.6108 * Real.exp (17.27 * 0 / (0 + 237.3))) ∧
    0.6108 * Real.exp (17.27 * 0 / (0 + 237.3)) <
      0.6108 * Real.exp (17.27 * (-474.6) / (-474.6 + 237.3)) := by
  refine ⟨by norm_num, by norm_num [calc_esat], by norm_num [calc_esat], ?_⟩
  have h0 : (17.27 * 0 / (0 + 237.3) : ℝ) = 0 := by norm_num
  have h1 : (17.27 * (-474.6) / (-474.6 + 237.3) : ℝ) = 34.54 := by norm_num
  rw [h0, h1]
  have h2 := Real.exp_lt_exp.mpr (show (0 : ℝ) < 34.54 by norm_num)
  nlinarith

/-- C5 (amended): `calc_esat` is strictly increasing on temperatures
above the singularity at -237.3; across the singularity the stated
monotonicity fails. -/
theorem calc_esat_strict_mono_physical (T1 T2 e1 e2 : ℝ)
    (h1 : -237.3 < T1) (h12 : T1 < T2)
    (he1 : calc_esat T1 = some e1) (he2 : calc_esat T2 = some e2) : e1 < e2 := by
  have hd1 : T1 + 237.3 ≠ 0 := ne_of_gt (by linarith)
  have hd2 : T2 + 237.3 ≠ 0 := ne_of_gt (by linarith)
  rw [calc_esat, if_neg hd1] at he1
  rw [calc_esat, if_neg hd2] at he2
  rw [← Option.some.inj he1, ← Option.some.inj he2]
  exact tetens_lt h1 h12

/-- C5 witness: the values at temperatures 0 and 1. -/
theorem calc_esat_strict_mono_physical_witness :
    0.6108 * Real.exp (17.27 * 0 / (0 + 237.3)) <
      0.6108 * Real.exp (17.27 * 1 / (1 + 237.3)) := by
  exact calc_esat_strict_mono_physical 0 1 _ _ (by norm_num) (by norm_num)
    (by norm_num [calc_esat]) (by norm_num [calc_esat])

/-- C8: for any temperature above the singularity, the vapor pressure
gradient computed from the saturation vapor pressure at that
temperature is strictly negative. -/
theorem calc_VPG_neg (T e v : ℝ) (hT : -237.3 < T)
    (he : calc_esat T = some e) (hv : calc_VPG e T = some v) : v < 0 := by
  have hd1 : T + 237.3 ≠ 0 := ne_of_gt (by linarith)
  have hd2 : T + 3.11 + 237.3 ≠ 0 := ne_of_gt (by linarith)
  rw [calc_esat, if_neg hd1] at he
  rw [calc_VPG, calc_esat, if_neg hd2, Option.map_some'] at hv
  rw [← Option.some.inj hv, ← Option.some.inj he]
  have h := tetens_lt hT (show T < T + 3.11 by linarith)
  linarith

/-- C8 witness: the gradient at temperature 0 is negative. -/
theorem calc_VPG_neg_witness :
    0.6108 * Real.exp (17.27 * 0 / (0 + 237.3)) -
      0.6108 * Real.exp (17.27 * (0 + 3.11) / (0 + 3.11 + 237.3)) < 0 := by
  exact calc_VPG_neg 0 (0.6108 * Real.exp (17.27 * 0 / (0 + 237.3)))
    (0.6108 * Real.exp (17.27 * 0 / (0 + 237.3)) -
      0.6108 * Real.exp (17.27 * (0 + 3.11) / (0 + 3.11 + 237.3)))
    (by norm_num) (by norm_num [calc_esat]) (by norm_num [calc_VPG, calc_esat])

/-- C6: under a physical air temperature and a relative humidity between
0 and 100 percent, the vapor pressure deficit computed in the pipeline
is nonnegative, the vapor pressure gradient is negative, the difference
of the Idso bounds equals 1.97 times their difference, hence the lower
bound is strictly below the upper bound and the division of the CWSI
step is always defined. -/
theorem cwsi_denominator_pos (Ta RH e ea vpg : ℝ)
    (hTa : -237.3 < Ta) (_hRH0 : 0 ≤ RH) (hRH1 : RH ≤ 100)
    (he : calc_esat Ta = some e) (hea : calc_ea Ta RH = some ea)
    (hvpg : calc_VPG e Ta = some vpg) :
    calc_VPD e ea = e * (1 - RH / 100) ∧
    0 ≤ calc_VPD e ea ∧ vpg < 0 ∧
    calc_idso_dTmax vpg - calc_idso_dTmin (calc_VPD e ea) =
      1.97 * (calc_VPD e ea - vpg) ∧
    calc_idso_dTmin (calc_VPD e ea) < calc_idso_dTmax vpg ∧
    ∀ T_target,
      (calc_CWSI (calc_idso_dTmin (calc_VPD e ea)) (calc_idso_dTmax vpg)
        Ta T_target).isSome = true := by
  have hd1 : Ta + 237.3 ≠ 0 := ne_of_gt (by linarith)
  have hd2 : Ta + 3.11 + 237.3 ≠ 0 := ne_of_gt (by linarith)
  rw [calc_esat, if_neg hd1] at he
  rw [calc_ea, calc_esat, if_neg hd1, Option.map_some'] at hea
  rw [calc_VPG, calc_esat, if_neg hd2, Option.map_some'] at hvpg
  have hee := Option.some.inj he
  have heaa := Option.some.inj hea
  have hvv := Option.some.inj hvpg
  have hepos : 0 < e := by
    rw [← hee]
    have := Real.exp_pos (17.27 * Ta / (Ta + 237.3))
    nlinarith
  have heaval : ea = RH * e / 100 := by
    rw [← heaa, hee]
  have hvpd : calc_VPD e ea = e * (1 - RH / 100) := by
    rw [calc_VPD, heaval]
    ring
  have hvpd0 : 0 ≤ calc_VPD e ea := by
    rw [hvpd]
    have : 0 ≤ 1 - RH / 100 := by linarith
    positivity
  have hvneg : vpg < 0 := by
    rw [← hvv, ← hee]
    have := tetens_lt hTa (show Ta < Ta + 3.11 by linarith)
    linarith
  have hdiff : calc_idso_dTmax vpg - calc_idso_dTmin (calc_VPD e ea) =
      1.97 * (calc_VPD e ea - vpg) := by
    rw [calc_idso_dTmax, calc_idso_dTmin]
    ring
  have hlt : calc_idso_dTmin (calc_VPD e ea) < calc_idso_dTmax vpg := by
    nlinarith
  refine ⟨hvpd, hvpd0, hvneg, hdiff, hlt, ?_⟩
  intro T_target
  have hne : calc_idso_dTmax vpg - calc_idso_dTmin (calc_VPD e ea) ≠ 0 :=
    ne_of_gt (by linarith)
  simp [calc_CWSI, hne]

/-- C6 witness: air temperature 0 and relative humidity 50 percent. -/
theorem cwsi_denominator_pos_witness :
    calc_VPD 0.6108 0.3054 = 0.6108 * (1 - 50 / 100) ∧
    0 ≤ calc_VPD 0.6108 0.3054 ∧
    0.6108 - 0.6108 * Real.exp (537097 / 2404100) < 0 ∧
    calc_idso_dTmax (0.6108 - 0.6108 * Real.exp (537097 / 2404100)) -
      calc_idso_dTmin (calc_VPD 0.6108 0.3054) =
      1.97 * (calc_VPD 0.6108 0.3054 -
        (0.6108 - 0.6108 * Real.exp (537097 / 2404100))) ∧
    calc_idso_dTmin (calc_VPD 0.6108 0.3054) <
      calc_idso_dTmax (0.6108 - 0.6108 * Real.exp (537097 / 2404100)) ∧
    (calc_CWSI (calc_idso_dTmin (calc_VPD 0.6108 0.3054))
      (calc_idso_dTmax (0.6108 - 0.6108 * Real.exp (537097 / 2404100)))
      0 5).isSome = true := by
  have h := cwsi_denominator_pos 0 50 0.6108 0.3054
    (0.6108 - 0.6108 * Real.exp (537097 / 2404100))
    (by norm_num) (by norm_num) (by norm_num)
    (by norm_num [calc_esat]) (by norm_num [calc_ea, calc_esat])
    (by norm_num [calc_VPG, calc_esat])
  exact ⟨h.1, h.2.1, h.2.2.1, h.2.2.2.1, h.2.2.2.2.1, h.2.2.2.2.2 5⟩

/-- C1: whenever every stage is defined, the pipeline returns exactly
the thirteen-component record obtained by composing the leaf stage
functions in the source's order, threading each output to the next
stage's input and using the default constants 0.90, 0.15, 0.98, 0.93
and -15, with the vapor pressures computed at the air temperature. -/
theorem calc_CWSI_ETa_pipeline_order
    (Nir Red T_sensor RH Ta ETc NDVI T_target esat ea vpg cwsi : ℝ)
    (hNDVI : calc_NDVI Nir Red = some NDVI)
    (hT : adj_target_T T_sensor
      (calc_target_emissivity (fractional_veg_cover (scale_NDVI NDVI 0.90 0.15)).1
        0.98 0.93) (-15) = some T_target)
    (hes : calc_esat Ta = some esat)
    (hea : calc_ea Ta RH = some ea)
    (hvpg : calc_VPG esat Ta = some vpg)
    (hcwsi : calc_CWSI (calc_idso_dTmin (calc_VPD esat ea)) (calc_idso_dTmax vpg)
      Ta T_target = some cwsi) :
    calc_CWSI_ETa Nir Red T_sensor RH Ta ETc =
      some (PipeOut.mk NDVI (scale_NDVI NDVI 0.90 0.15)
        (fractional_veg_cover (scale_NDVI NDVI 0.90 0.15)).1
        (calc_target_emissivity (fractional_veg_cover (scale_NDVI NDVI 0.90 0.15)).1
          0.98 0.93)
        T_target esat ea (calc_VPD esat ea) vpg
        (calc_idso_dTmin (calc_VPD esat ea)) (calc_idso_dTmax vpg)
        cwsi (calc_ETa cwsi ETc)) := by
  simp only [calc_CWSI_ETa, hNDVI, Option.some_bind, hT, hes, hea, hvpg, hcwsi]

/-- NDVI stage of the worked example. -/
lemma eg_NDVI : calc_NDVI 1 0 = some 1 := by norm_num [calc_NDVI]

/-- Scaling stage of the worked example. -/
lemma eg_scaled : scale_NDVI 1 0.90 0.15 = 17 / 15 := by norm_num [scale_NDVI]

/-- Cover stage of the worked example: the pre-clamp square exceeds 1. -/
lemma eg_Fr : (fractional_veg_cover (17 / 15 : ℝ)).1 = 1 := by
  norm_num [fractional_veg_cover]

/-- Emissivity stage of the worked example. -/
lemma eg_emis : calc_target_emissivity 1 0.98 0.93 = 0.98 := by
  norm_num [calc_target_emissivity]

/-- Temperature-correction stage of the worked example: the radicand is
the fourth power of 15. -/
lemma eg_T :
    adj_target_T 15
      (calc_target_emissivity (fractional_veg_cover (scale_NDVI 1 0.90 0.15)).1
        0.98 0.93) (-15) = some 15 := by
  rw [eg_scaled, eg_Fr, eg_emis]
  simp only [adj_target_T]
  have hrad : ((15 : ℝ) ^ 4 - (1 - 0.98) * (-15 : ℝ) ^ 4) / 0.98 = 50625 := by norm_num
  rw [hrad, if_neg (show ¬ ((0.98 : ℝ) = 0) by norm_num),
    if_neg (show ¬ ((50625 : ℝ) < 0) by norm_num)]
  have h4 : (50625 : ℝ) = 15 ^ (4 : ℕ) := by norm_num
  have h5 : (0.25 : ℝ) = (((4 : ℕ) : ℝ))⁻¹ := by norm_num
  rw [h4, h5, Real.pow_rpow_inv_natCast (by norm_num) (by norm_num)]

/-- Saturation vapor pressure of the worked example at air temperature
zero. -/
lemma eg_esat : calc_esat 0 = some 0.6108 := by norm_num [calc_esat]

/-- Actual vapor pressure of the worked example at zero humidity. -/
lemma eg_ea : calc_ea 0 0 = some 0 := by norm_num [calc_ea, calc_esat]

/-- Vapor pressure deficit of the worked example. -/
lemma eg_vpd : calc_VPD 0.6108 0 = 0.6108 := by norm_num [calc_VPD]

/-- Vapor pressure gradient of the worked example. -/
lemma eg_vpg : calc_VPG 0.6108 0 = some (0.6108 - 0.6108 * Real.exp (537097 / 2404100)) := by
  norm_num [calc_VPG, calc_esat]

/-- Lower Idso bound of the worked example. -/
lemma eg_dTmin : calc_idso_dTmin 0.6108 = 1.906724 := by norm_num [calc_idso_dTmin]

/-- Upper Idso bound of the worked example. -/
lemma eg_dTmax :
    calc_idso_dTmax (0.6108 - 0.6108 * Real.exp (537097 / 2404100)) =
      1.906724 + 1.203276 * Real.exp (537097 / 2404100) := by
  simp only [calc_idso_dTmax]
  ring

/-- Stress index of the worked example. -/
lemma eg_cwsi :
    calc_CWSI (calc_idso_dTmin (calc_VPD 0.6108 0))
      (calc_idso_dTmax (0.6108 - 0.6108 * Real.exp (537097 / 2404100))) 0 15 =
      some (13.093276 / (1.203276 * Real.exp (537097 / 2404100))) := by
  rw [eg_vpd, eg_dTmin, eg_dTmax]
  have hden : (1.906724 + 1.203276 * Real.exp (537097 / 2404100)) - 1.906724 =
      1.203276 * Real.exp (537097 / 2404100) := by ring
  have hpos : (0 : ℝ) < 1.203276 * Real.exp (537097 / 2404100) := by positivity
  simp only [calc_CWSI]
  rw [hden, if_neg (ne_of_gt hpos)]
  norm_num

/-- C1 witness: the full pipeline evaluated at the worked example,
obtained by instantiating the pipeline-order theorem. -/
theorem calc_CWSI_ETa_pipeline_order_witness :
    calc_CWSI_ETa 1 0 15 0 0 5 = some egOut := by
  have h := calc_CWSI_ETa_pipeline_order 1 0 15 0 0 5 1 15 0.6108 0
    (0.6108 - 0.6108 * Real.exp (537097 / 2404100))
    (13.093276 / (1.203276 * Real.exp (537097 / 2404100)))
    eg_NDVI eg_T eg_esat eg_ea eg_vpg eg_cwsi
  rw [h, eg_scaled, eg_Fr, eg_emis, eg_vpd, eg_dTmin, eg_dTmax]
  simp only [egOut, egVPG, egDTmax, egCWSI, egE, calc_ETa]

/-- Inversion of a successful batch traversal: the result has one entry
per input, each obtained by processing the input at the same position. -/
lemma mapExcept_ok {ε α β : Type} (f : α → Except ε β) :
    ∀ (l : List α) (res : List β), mapExcept f l = Except.ok res →
      res.length = l.length ∧
      ∀ i (hi : i < l.length), ∃ b, f (l.get ⟨i, hi⟩) = Except.ok b ∧
        res.get? i = some b := by
  intro l
  induction l with
  | nil =>
    intro res h
    simp only [mapExcept] at h
    cases h
    exact ⟨rfl, fun i hi => absurd hi (Nat.not_lt_zero i)⟩
  | cons a as ih =>
    intro res h
    cases hfa : f a with
    | error e =>
      simp only [mapExcept, hfa] at h
      exact Except.noConfusion h
    | ok b =>
      cases hrest : mapExcept f as with
      | error e =>
        simp only [mapExcept, hfa, hrest] at h
        exact Except.noConfusion h
      | ok bs =>
        simp only [mapExcept, hfa, hrest, Except.ok.injEq] at h
        subst h
        obtain ⟨hlen, hidx⟩ := ih bs hrest
        refine ⟨by simp [hlen], ?_⟩
        intro i hi
        cases i with
        | zero => exact ⟨b, hfa, rfl⟩
        | succ j =>
          have hj : j < as.length := Nat.lt_of_succ_lt_succ hi
          obtain ⟨cv, hc1, hc2⟩ := hidx j hj
          exact ⟨cv, hc1, hc2⟩

/-- C9: when the humidity column is missing from the first row while
the three columns looked up before it are present, the batch runner
aborts with the schema error naming that column before any row's
pipeline is run, and no output table is produced. -/
theorem run_CWSI_ETa_model_missing_column
    (r : Row) (rest : List Row) (cN cR cT cRH cTa cE : String) (a b c : ℝ)
    (hN : r.get cN = some a) (hR : r.get cR = some b) (hT2 : r.get cT = some c)
    (hRH : r.get cRH = none) :
    run_CWSI_ETa_model (r :: rest) cN cR cT cRH cTa cE =
      Except.error (ModelError.schema cRH) := by
  have hp : processRow cN cR cT cRH cTa cE r = Except.error (ModelError.schema cRH) := by
    simp only [processRow, hN, hR, hT2, hRH]
  simp only [run_CWSI_ETa_model, mapExcept, hp]

/-- C9 witness: a three-row table whose first row lacks the RH column
under the default column names. -/
theorem run_CWSI_ETa_model_missing_column_witness :
    run_CWSI_ETa_model
      [Row.mk [("R_nir", 1), ("R_red", 0), ("T_target", 15)], Row.mk [], Row.mk []]
      "R_nir" "R_red" "T_target" "RH" "Air Temp" "ETc" =
      Except.error (ModelError.schema "RH") := by
  exact run_CWSI_ETa_model_missing_column
    (Row.mk [("R_nir", 1), ("R_red", 0), ("T_target", 15)]) [Row.mk [], Row.mk []]
    "R_nir" "R_red" "T_target" "RH" "Air Temp" "ETc" 1 0 15
    (by simp [Row.get, lookupCell]) (by simp [Row.get, lookupCell])
    (by simp [Row.get, lookupCell]) (by simp [Row.get, lookupCell])

/-- Assigning a column absent from the row appends its cell. -/
lemma setCell_fresh (cells : List (String × ℝ)) (c : String) (v : ℝ)
    (h : hasCol cells c = false) : setCell cells c v = cells ++ [(c, v)] := by
  simp [setCell, h]

/-- Column presence distributes over concatenation. -/
lemma hasCol_append (xs ys : List (String × ℝ)) (c : String) :
    hasCol (xs ++ ys) c = (hasCol xs c || hasCol ys c) := by
  simp [hasCol]

/-- Sequentially assigning pairwise-distinct columns that are absent
from a row appends their cells in order. -/
lemma setCells_fresh :
    ∀ (pairs cells : List (String × ℝ)),
      (∀ p ∈ pairs, hasCol cells p.1 = false) →
      (pairs.map Prod.fst).Nodup →
      setCells cells pairs = cells ++ pairs := by
  intro pairs
  induction pairs with
  | nil =>
    intro cells _ _
    simp [setCells]
  | cons p rest ih =>
    intro cells hfresh hnodup
    simp only [setCells]
    rw [setCell_fresh cells p.1 p.2 (hfresh p (List.mem_cons_self p rest))]
    simp only [List.map_cons, List.nodup_cons] at hnodup
    have hfresh2 : ∀ q ∈ rest, hasCol (cells ++ [(p.1, p.2)]) q.1 = false := by
      intro q hq
      rw [hasCol_append, hfresh q (List.mem_cons_of_mem p hq)]
      have hne : p.1 ≠ q.1 := by
        intro heq
        exact hnodup.1 (heq ▸ List.mem_map_of_mem Prod.fst hq)
      simp [hasCol, hne]
    rw [ih (cells ++ [(p.1, p.2)]) hfresh2 hnodup.2]
    simp

/-- The names of the result cells are exactly the result columns. -/
lemma resultCells_names (t : PipeOut) : (resultCells t).map Prod.fst = resultCols := rfl

/-- Positionwise description of mapping over a zip of equal-length
lists. -/
lemma zip_map_getq {α β γ : Type} (f : α × β → γ) :
    ∀ (l : List α) (l2 : List β) (i : Nat) (hi : i < l.length) (hi2 : i < l2.length),
      ((l.zip l2).map f).get? i = some (f (l.get ⟨i, hi⟩, l2.get ⟨i, hi2⟩)) := by
  intro l
  induction l with
  | nil =>
    intro l2 i hi hi2
    exact absurd hi (Nat.not_lt_zero i)
  | cons a as ih =>
    intro l2 i hi hi2
    cases l2 with
    | nil => exact absurd hi2 (Nat.not_lt_zero i)
    | cons b bs =>
      cases i with
      | zero => rfl
      | succ j =>
        simpa using ih bs j (Nat.lt_of_succ_lt_succ hi) (Nat.lt_of_succ_lt_succ hi2)

/-- C3 (amended): on an input table none of whose rows already carries
one of the eleven result-column names, a successful run returns one
output row per input row in order, each equal to the input row's cells
with the eleven result cells appended in the fixed order and computed
from that row alone. -/
theorem run_CWSI_ETa_model_frame (rows out : List Row) (cN cR cT cRH cTa cE : String)
    (hfresh : ∀ r ∈ rows, ∀ c ∈ resultCols, hasCol r.cells c = false)
    (h : run_CWSI_ETa_model rows cN cR cT cRH cTa cE = Except.ok out) :
    out.length = rows.length ∧
    ∀ i (hi : i < rows.length), ∃ t : PipeOut,
      processRow cN cR cT cRH cTa cE (rows.get ⟨i, hi⟩) = Except.ok t ∧
      out.get? i = some (Row.mk ((rows.get ⟨i, hi⟩).cells ++ resultCells t)) := by
  cases hmap : mapExcept (processRow cN cR cT cRH cTa cE) rows with
  | error e =>
    simp only [run_CWSI_ETa_model, hmap] at h
    exact Except.noConfusion h
  | ok ts =>
    simp only [run_CWSI_ETa_model, hmap, Except.ok.injEq] at h
    obtain ⟨hlen, hidx⟩ := mapExcept_ok _ rows ts hmap
    subst h
    constructor
    · simp [List.length_zip, hlen]
    · intro i hi
      obtain ⟨t, ht1, ht2⟩ := hidx i hi
      refine ⟨t, ht1, ?_⟩
      have hi2 : i < ts.length := by rw [hlen]; exact hi
      rw [zip_map_getq _ rows ts i hi hi2]
      have hts : ts.get ⟨i, hi2⟩ = t := by
        have := List.get?_eq_get hi2
        rw [ht2] at this
        exact (Option.some.inj this).symm
      rw [hts]
      have hmem : rows.get ⟨i, hi⟩ ∈ rows := List.get_mem rows i hi
      have hfr : ∀ p ∈ resultCells t, hasCol (rows.get ⟨i, hi⟩).cells p.1 = false := by
        intro p hp
        have hpc : p.1 ∈ resultCols := by
          rw [← resultCells_names t]
          exact List.mem_map_of_mem Prod.fst hp
        exact hfresh (rows.get ⟨i, hi⟩) hmem p.1 hpc
      have hnd : ((resultCells t).map Prod.fst).Nodup := by
        rw [resultCells_names t]
        decide
      rw [appendResults, setCells_fresh (resultCells t) (rows.get ⟨i, hi⟩).cells hfr hnd]

/-- Full pipeline evaluation of the worked example, proved directly
from the stage evaluations. -/
lemma calc_CWSI_ETa_eval : calc_CWSI_ETa 1 0 15 0 0 5 = some egOut := by
  simp only [calc_CWSI_ETa, eg_NDVI, Option.some_bind, eg_T, eg_esat, eg_ea, eg_vpg,
    eg_cwsi]
  rw [eg_scaled, eg_Fr, eg_emis, eg_vpd, eg_dTmin, eg_dTmax]
  simp only [egOut, egVPG, egDTmax, egCWSI, egE, calc_ETa]

/-- The worked example cells carry none of the result-column names. -/
lemma egCells_fresh : ∀ c ∈ resultCols, hasCol egCells c = false := by
  intro c hc
  fin_cases hc <;> simp [hasCol, egCells]

/-- The per-row driver on the worked example row. -/
lemma processRow_eg :
    processRow "R_nir" "R_red" "T_target" "RH" "Air Temp" "ETc" (Row.mk egCells) =
      Except.ok egOut := by
  have h := calc_CWSI_ETa_eval
  simp [processRow, Row.get, egCells, lookupCell, h]

/-- The batch runner on the single worked example row. -/
lemma run_eg :
    run_CWSI_ETa_model [Row.mk egCells] "R_nir" "R_red" "T_target" "RH" "Air Temp" "ETc" =
      Except.ok [Row.mk (egCells ++ resultCells egOut)] := by
  have happ : appendResults egCells egOut = egCells ++ resultCells egOut := by
    rw [appendResults]
    apply setCells_fresh
    · intro p hp
      have hpc : p.1 ∈ resultCols := by
        rw [← resultCells_names egOut]
        exact List.mem_map_of_mem Prod.fst hp
      exact egCells_fresh p.1 hpc
    · rw [resultCells_names egOut]
      decide
  simp [run_CWSI_ETa_model, mapExcept, processRow_eg, happ]

/-- C3 witness: the frame theorem instantiated on the worked example
table, at row index zero. -/
theorem run_CWSI_ETa_model_frame_witness :
    [Row.mk (egCells ++ resultCells egOut)].length = [Row.mk egCells].length ∧
    processRow "R_nir" "R_red" "T_target" "RH" "Air Temp" "ETc" (Row.mk egCells) =
      Except.ok egOut ∧
    [Row.mk (egCells ++ resultCells egOut)].get? 0 =
      some (Row.mk (egCells ++ resultCells egOut)) := by
  have hfresh : ∀ r ∈ [Row.mk egCells], ∀ c ∈ resultCols, hasCol r.cells c = false := by
    intro r hr
    simp only [List.mem_singleton] at hr
    subst hr
    exact egCells_fresh
  have h := run_CWSI_ETa_model_frame [Row.mk egCells]
    [Row.mk (egCells ++ resultCells egOut)]
    "R_nir" "R_red" "T_target" "RH" "Air Temp" "ETc" hfresh run_eg
  obtain ⟨h1, h2⟩ := h
  obtain ⟨t, ht1, ht2⟩ := h2 0 (by norm_num)
  have h3 : (Except.ok t : Except ModelError PipeOut) = Except.ok egOut := by
    rw [← ht1]
    exact processRow_eg
  have hteq : t = egOut := Except.ok.inj h3
  subst hteq
  exact ⟨h1, ht1, ht2⟩

/-- The per-row driver on the clashing row: the extra NDVI cell does
not disturb the six input lookups. -/
lemma processRow_clash :
    processRow "R_nir" "R_red" "T_target" "RH" "Air Temp" "ETc" (Row.mk clashCells) =
      Except.ok egOut := by
  have h := calc_CWSI_ETa_eval
  simp [processRow, Row.get, clashCells, egCells, lookupCell, h]

/-- The column assignments on the clashing row overwrite the
pre-existing NDVI cell in place and append the other ten. -/
lemma appendResults_clash : appendResults clashCells egOut = outClashCells := by
  simp [appendResults, resultCells, setCells, setCell, hasCol, clashCells, egCells,
    outClashCells, egOut]

/-- C3 counterexample: on a table whose row already carries an NDVI
column, the run succeeds but the pre-existing NDVI cell is overwritten
(42 becomes 1) and only ten columns are appended, so the output is not
the input with eleven columns appended and unchanged cells. -/
theorem run_CWSI_ETa_model_overwrite_counterexample :
    run_CWSI_ETa_model [Row.mk clashCells] "R_nir" "R_red" "T_target" "RH" "Air Temp"
      "ETc" = Except.ok [Row.mk outClashCells] ∧
    lookupCell clashCells "NDVI" = some 42 ∧
    lookupCell outClashCells "NDVI" = some 1 ∧
    outClashCells.length = clashCells.length + 10 ∧
    (1 : ℝ) < 42 := by
  refine ⟨?_, ?_, ?_, ?_, by norm_num⟩
  · simp [run_CWSI_ETa_model, mapExcept, processRow_clash, appendResults_clash]
  · simp [clashCells, lookupCell]
  · simp [outClashCells, egCells, lookupCell]
  · simp [outClashCells, clashCells, egCells]
